import Mathlib

/-!
Verification of the BoltzPy time-stepping core.

This file shallowly embeds the parts of the repository that the checked
properties are about:

* src/boltzpy/compute.py : operator_splitting, the first-order upwind
  transport operators, and the Euler collision scheme.
* src/Grid.py            : the Grid sizing logic and its integrity check.
* src/boltzpy/geometry.py: the Geometry rule partition, add_rule and the
  per-step transport dispatch.

Real numbers of the source (numpy floats) are modelled as rationals, numpy
arrays as total functions from indices; point indices are integers (Python
ints).  The Rule class itself is not part of the sources, only its callers
are; the little of it that is needed (its affected points, the size of its
initial state, and which transport routine its variant invokes) is modelled
from the spec and marked as such.
-/

/-- One precomputed collision quadruple: a row of data.col
(four velocity indices). -/
structure Quad where
  i0 : Nat
  i1 : Nat
  i2 : Nat
  i3 : Nat

/-- The simulation-state object (the data argument of src/boltzpy/compute.py).
Arrays are modelled as total functions: state and result have one row per
space point and one column per velocity; vG holds the first component of
each velocity-grid vector (the 1D scheme only reads component 0);
velocity_offset is the first component of the constant drift offset. -/
structure SimData where
  state : Int → Nat → ℚ
  result : Int → Nat → ℚ
  vG : Nat → ℚ
  velocity_offset : ℚ
  dt : ℚ
  dp : ℚ
  n_points : Nat
  n_vels : Nat
  col : List Quad
  col_mat : Nat → Nat → ℚ
  t : Nat

/-- First component of the effective velocity pv = data.vG + data.velocity_offset
(src/boltzpy/compute.py, transport functions). -/
def pv1 (d : SimData) (v : Nat) : ℚ :=
  d.vG v + d.velocity_offset

/-- All entries of data.state are nonnegative: the assertion
np.all(data.state >= 0) of operator_splitting (src/boltzpy/compute.py line 71). -/
def allNonneg (d : SimData) : Prop :=
  ∀ p < d.n_points, ∀ v < d.n_vels, 0 ≤ d.state (p : Int) v

instance (d : SimData) : Decidable (allNonneg d) := by
  unfold allNonneg
  infer_instance

/-- operator_splitting (src/boltzpy/compute.py lines 66-73): run the transport
stage, then the collision stage, then assert that the state is nonnegative
(a failed assertion aborts the step: modelled as none), then increment t. -/
def operator_splitting (data : SimData) (func_transport func_collision : SimData → SimData) :
    Option SimData :=
  let d1 := func_transport data
  let d2 := func_collision d1
  if allNonneg d2 then some { d2 with t := d2.t + 1 } else none

/-- transport_outflow_remains (src/boltzpy/compute.py lines 79-85), pointwise:
the fraction (1 - |pv|*dt/dp) of the current value that stays at the point. -/
def transport_outflow_remains (d : SimData) (p : Int) (v : Nat) : ℚ :=
  (1 - |d.vG v + d.velocity_offset| * d.dt / d.dp) * d.state p v

/-- transport_inflow_innerPoint (src/boltzpy/compute.py lines 88-105),
pointwise: rows with pv < 0 take dt/dp*|pv| of the right neighbour, rows
with pv > 0 the same fraction of the left neighbour, the rest stay at the
zero the result array was initialized with. -/
def transport_inflow_innerPoint (d : SimData) (p : Int) (v : Nat) : ℚ :=
  if pv1 d v < 0 then d.dt / d.dp * |pv1 d v| * d.state (p + 1) v
  else if 0 < pv1 d v then d.dt / d.dp * |pv1 d v| * d.state (p - 1) v
  else 0

/-- transport_inflow_boundaryPoint (src/boltzpy/compute.py lines 108-125),
pointwise: as transport_inflow_innerPoint but only velocity indices listed
in incoming_velocities are filled in; all other columns keep the zero of
the freshly allocated result array. -/
def transport_inflow_boundaryPoint (d : SimData) (incoming_velocities : List Nat)
    (p : Int) (v : Nat) : ℚ :=
  if v ∈ incoming_velocities then
    if pv1 d v < 0 then d.dt / d.dp * |pv1 d v| * d.state (p + 1) v
    else if 0 < pv1 d v then d.dt / d.dp * |pv1 d v| * d.state (p - 1) v
    else 0
  else 0

/-- transport_fdm_inner (src/boltzpy/compute.py lines 154-173): writes
outflow plus inflow of every affected point into data.result, leaving all
other rows of the result buffer untouched.  The source raises for p_dim /= 1;
this embedding is the implemented 1D case. -/
def transport_fdm_inner (d : SimData) (affected_points : List Int) : SimData :=
  { d with
    result := fun p v =>
      if p ∈ affected_points then
        transport_outflow_remains d p v + transport_inflow_innerPoint d p v
      else d.result p v }

/-- no_transport (src/boltzpy/compute.py lines 176-178): writes nothing. -/
def no_transport (d : SimData) (_affected_points : List Int) : SimData :=
  d

/-- The vector of collision factors of one point
(euler_scheme, src/boltzpy/compute.py lines 187-192):
state[p,i0]*state[p,i2] - state[p,i1]*state[p,i3] for every quadruple. -/
def colFactor (st : Int → Nat → ℚ) (col : List Quad) (p : Int) : List ℚ :=
  col.map fun q => st p q.i0 * st p q.i2 - st p q.i1 * st p q.i3

/-- Row v of the matrix-vector product data.col_mat.dot(col_factor). -/
def matDotVec (mat : Nat → Nat → ℚ) (v : Nat) (xs : List ℚ) : ℚ :=
  (xs.enum.map fun kx => mat v kx.1 * kx.2).sum

/-- One iteration of the euler_scheme loop body: add col_mat.dot(col_factor)
to row p of the state, leaving every other row alone. -/
def euler_collision_point (col : List Quad) (mat : Nat → Nat → ℚ) (p : Int)
    (st : Int → Nat → ℚ) : Int → Nat → ℚ :=
  fun q v => if q = p then st q v + matDotVec mat v (colFactor st col p) else st q v

/-- euler_scheme (src/boltzpy/compute.py lines 185-194): the sequential loop
over the affected points. -/
def euler_scheme (d : SimData) (affected_points : List Int) : SimData :=
  { d with
    state :=
      affected_points.foldl (fun st p => euler_collision_point d.col d.col_mat p st) d.state }

/-- Grid shapes (src/Grid.py): GRID_SHAPES contains only rectangular; a fresh
Grid starts in the NOT INITIALIZED pseudo-shape. -/
inductive GridShape where
  | rectangular
  | notInitialized
deriving DecidableEq

/-- The Grid data (src/Grid.py).  boundaries is the (3,2) array, one
(min, max) pair per row; d the step size, n the stored point count.
The fType bookkeeping (numpy dtypes) carries no numeric content and is
omitted. -/
structure GridS where
  dim : Nat
  boundaries : Fin 3 → ℚ × ℚ
  d : ℚ
  n : Int
  shape : GridShape

/-- A Grid as produced by Grid.__init__ (src/Grid.py lines 33-39). -/
def gridDefault : GridS :=
  { dim := 0
    boundaries := fun _ => (0, 0)
    d := 0
    n := 0
    shape := GridShape.notInitialized }

/-- The boundaries array equals np.zeros((3,2)) (the assertion inside
Grid.__compute_n, src/Grid.py lines 42-43). -/
def boundaries_all_zero (b : Fin 3 → ℚ × ℚ) : Prop :=
  ∀ i, b i = (0, 0)

instance (b : Fin 3 → ℚ × ℚ) : Decidable (boundaries_all_zero b) := by
  unfold boundaries_all_zero
  infer_instance

/-- Grid.__compute_n (src/Grid.py lines 41-58): per axis
ceil((max - min)/d) + 1, multiplied over the three rows of the boundaries
array (uninitialized rows have zero width and contribute a factor 1).
none models a failed assertion (all-zero boundaries) or the unspecified
shape branch.  The assertion d is-not-0.0 always passes in CPython (the
stored float is a distinct object from the literal) and is omitted. -/
def compute_n? (g : GridS) : Option Int :=
  if boundaries_all_zero g.boundaries then none
  else
    match g.shape with
    | GridShape.rectangular =>
        some (∏ i : Fin 3, (⌈((g.boundaries i).2 - (g.boundaries i).1) / g.d⌉ + 1))
    | GridShape.notInitialized => none

/-- CPython object identity of two independently constructed int objects,
as used by the assertion self.n is self.__compute_n() (src/Grid.py line 74):
the two objects coincide exactly when the value is equal and lies in the
interpreter's small-integer cache [-5, 256]. -/
def int_is (a b : Int) : Bool :=
  a == b && decide (-5 ≤ a) && decide (a ≤ 256)

/-- Grid.check_integrity (src/Grid.py lines 60-77), numeric content:
dim in {1,2,3}, d > 0, n >= 2, shape in GRID_SHAPES, and the identity
comparison of n with the freshly recomputed count (the type assertions of
the source hold by construction in this typed model and are omitted). -/
def grid_check_integrity (g : GridS) : Bool :=
  (g.dim == 1 || g.dim == 2 || g.dim == 3) &&
  decide (0 < g.d) &&
  decide (2 ≤ g.n) &&
  decide (g.shape = GridShape.rectangular) &&
  (match compute_n? g with
   | some m => int_is g.n m
   | none => false)

/-- The boundaries array after the slice assignment
self.boundaries[0:dim, :] = boundaries (src/Grid.py line 81): rows below dim
are replaced by the submitted rows, the remaining rows keep their value.
The source requires the submitted array to have shape (dim, 2). -/
def updated_boundaries (g : GridS) (dim : Nat) (bs : List (ℚ × ℚ)) : Fin 3 → ℚ × ℚ :=
  fun i => if (i : Nat) < dim then bs.getD i (0, 0) else g.boundaries i

/-- Grid.__initialize_without_n (src/Grid.py lines 79-84): store dim,
boundaries, d and shape, then derive n via __compute_n.  none models a
raised exception (shape mismatch of the slice assignment, or an assertion
inside __compute_n). -/
def init_without_n (g : GridS) (dim : Nat) (bs : List (ℚ × ℚ)) (dv : ℚ)
    (shape : GridShape) : Option GridS :=
  if bs.length = dim then
    let g1 : GridS :=
      { g with dim := dim, boundaries := updated_boundaries g dim bs, d := dv, shape := shape }
    (compute_n? g1).map fun m => { g1 with n := m }
  else none

/-- Grid.initialize (src/Grid.py lines 86-105): of the three case switches
sw_b, sw_d, sw_n only the combination boundaries-and-step-given,
count-not-given reaches __initialize_without_n; every other combination
hits the assert False branch (modelled as none). -/
def grid_init (g : GridS) (dim : Nat) (boundaries : Option (List (ℚ × ℚ)))
    (d : Option ℚ) (n : Option Int) (shape : GridShape) : Option GridS :=
  match boundaries, d, n with
  | some bs, some dv, none => init_without_n g dim bs dv shape
  | _, _, _ => none

/-- Modelled from the spec: the transport behaviour of a Rule variant.  The
Rule classes themselves are not under src/; per spec section 4.2 an
InnerPointRule transports with the generic upwind scheme
(transport_fdm_inner of src/boltzpy/compute.py) while a ConstantPointRule
performs no transport (no_transport of src/boltzpy/compute.py). -/
inductive RuleKind where
  | inner
  | noTransport
deriving DecidableEq

/-- Modelled from the spec: a Rule (the class is not under src/, only its
callers in src/boltzpy/geometry.py are).  Per spec section 3 it owns a list
of affected point indices and an initial state; of the initial state only
its size enters the Geometry checks, and the variant enters only through
its transport behaviour. -/
structure RuleS where
  affected_points : List Int
  initial_state_size : Nat
  kind : RuleKind
deriving DecidableEq

/-- The Geometry data (src/boltzpy/geometry.py): the space-grid shape and
the ordered rule list. -/
structure Geometry where
  shape : List Nat
  rules : List RuleS
deriving DecidableEq

/-- Geometry.size (src/boltzpy/geometry.py lines 55-60): np.prod(shape). -/
def Geometry.size (g : Geometry) : Nat :=
  g.shape.prod

/-- The list built by the Geometry.affected_points property
(src/boltzpy/geometry.py lines 62-68): the concatenation of every rule's
affected points, in rule order.  The property additionally asserts that
this list has no duplicates; that assertion is modelled at the call sites. -/
def affectedList (g : Geometry) : List Int :=
  g.rules.flatMap RuleS.affected_points

/-- Geometry.unaffected_points (src/boltzpy/geometry.py lines 70-74):
set(range(size)) minus the affected points, here as the filtered index
list. -/
def unaffectedList (g : Geometry) : List Int :=
  (List.map (fun k : Nat => (k : Int)) (List.range g.size)).filter fun p =>
    decide (p ∉ affectedList g)

/-- The assertions of Geometry.check_parameters (src/boltzpy/geometry.py
lines 253-323) that constrain numeric data and are run in every check:
ndim in SUPP_GRID_DIMENSIONS = {1,2}, all shape entries >= 1, no point
affected by more than one rule, and all rules sharing one model size.
The per-rule rule.check_integrity call concerns only the Rule's own
variant parameters (Rule class not under src/) and is omitted; the type
and dtype assertions hold by construction in this typed model. -/
def check_params_core (g : Geometry) : Bool :=
  (g.shape.length == 1 || g.shape.length == 2) &&
  decide (∀ s ∈ g.shape, 1 ≤ s) &&
  decide (affectedList g).Nodup &&
  decide ((g.rules.map RuleS.initial_state_size).dedup.length ≤ 1)

/-- The complete check (complete_check=True, as run by is_set_up): the core
assertions plus all points being affected at least once,
len(affected_points) == np.prod(shape) (src/boltzpy/geometry.py lines
306-307). -/
def check_params_complete (g : Geometry) : Bool :=
  check_params_core g && (affectedList g).length == g.size

/-- Geometry.is_set_up (src/boltzpy/geometry.py lines 97-105).  some b is a
returned value, none a raised AssertionError: accessing unaffected_points
first runs the no-duplicates assertion of the affected_points property, and
the final branch runs the complete integrity check before returning True.
The attribute-is-None test of the source cannot fire in this model, where
both attributes always exist. -/
def is_set_up (g : Geometry) : Option Bool :=
  if (affectedList g).Nodup then
    if unaffectedList g ≠ [] then some false
    else if check_params_complete g then some true else none
  else none

/-- Geometry.add_rule (src/boltzpy/geometry.py lines 83-95).  The result is
ok on a completed call and error on a raised AssertionError, in both cases
carrying the Geometry object as the call leaves it: the subset assertion
fires before self.rules is reassigned, the integrity re-check after. -/
def add_rule (g : Geometry) (new_rule : RuleS) : Except Geometry Geometry :=
  if (affectedList g).Nodup then
    if ∀ p ∈ new_rule.affected_points, p ∈ unaffectedList g then
      let g1 : Geometry := { g with rules := g.rules ++ [new_rule] }
      if check_params_core g1 then Except.ok g1 else Except.error g1
    else Except.error g
  else Except.error g

/-- The rules array of the Geometry object after an add_rule call, whether
the call completed or raised. -/
def rules_after : Except Geometry Geometry → List RuleS
  | Except.ok g => g.rules
  | Except.error g => g.rules

/-- Dispatch of rule.transport(data) (modelled from the spec, section 4.2:
the Rule classes are not under src/): an inner rule runs transport_fdm_inner
on its affected points, a constant rule runs no_transport. -/
def rule_transport (d : SimData) (r : RuleS) : SimData :=
  match r.kind with
  | RuleKind.inner => transport_fdm_inner d r.affected_points
  | RuleKind.noTransport => no_transport d r.affected_points

/-- Geometry.transport (src/boltzpy/geometry.py lines 148-153): run every
rule's transport in rule order, then copy the result buffer into the
state. -/
def geometry_transport (g : Geometry) (d : SimData) : SimData :=
  let d1 := g.rules.foldl rule_transport d
  { d1 with state := d1.result }

/-- Row p of a foldl of euler collision updates is untouched when p is not
in the point list (each iteration writes only its own row). -/
lemma euler_fold_untouched (col : List Quad) (mat : Nat → Nat → ℚ) (l : List Int)
    (st : Int → Nat → ℚ) (p : Int) (v : Nat) (hp : p ∉ l) :
    l.foldl (fun s q => euler_collision_point col mat q s) st p v = st p v := by
  induction l generalizing st with
  | nil => rfl
  | cons a as ih =>
      simp only [List.mem_cons, not_or] at hp
      rw [List.foldl_cons, ih _ hp.2]
      simp [euler_collision_point, hp.1]

/-- The collision factors of point p read only row p of the state. -/
lemma colFactor_row_eq (col : List Quad) (st st' : Int → Nat → ℚ) (p : Int)
    (h : ∀ w, st p w = st' p w) :
    colFactor st col p = colFactor st' col p := by
  simp [colFactor, h]

/-- C3: euler_scheme forms, at every affected point p, the factor vector
state[p,i0]*state[p,i2] - state[p,i1]*state[p,i3] over the precomputed
quadruples and adds the collision matrix applied to it to row p of the
state; rows of points not in affected_points are left unchanged. -/
theorem euler_scheme_spec (d : SimData) (aff : List Int) (hnd : aff.Nodup)
    (p : Int) (v : Nat) :
    (p ∈ aff → (euler_scheme d aff).state p v
        = d.state p v + matDotVec d.col_mat v (colFactor d.state d.col p)) ∧
    (p ∉ aff → (euler_scheme d aff).state p v = d.state p v) := by
  constructor
  · intro hmem
    obtain ⟨l1, l2, rfl⟩ := List.append_of_mem hmem
    rw [List.nodup_append] at hnd
    obtain ⟨hn1, hn2, hdisj⟩ := hnd
    have hp1 : p ∉ l1 := fun h => hdisj h (List.mem_cons_self p l2)
    have hp2 : p ∉ l2 := (List.nodup_cons.mp hn2).1
    have hrow : ∀ w,
        l1.foldl (fun s q => euler_collision_point d.col d.col_mat q s) d.state p w
          = d.state p w :=
      fun w => euler_fold_untouched d.col d.col_mat l1 d.state p w hp1
    show (l1 ++ p :: l2).foldl (fun s q => euler_collision_point d.col d.col_mat q s)
        d.state p v = _
    rw [List.foldl_append, List.foldl_cons,
      euler_fold_untouched d.col d.col_mat l2 _ p v hp2]
    show euler_collision_point d.col d.col_mat p _ p v = _
    rw [euler_collision_point, if_pos rfl, hrow v,
      colFactor_row_eq d.col _ d.state p hrow]
  · intro hmem
    exact euler_fold_untouched d.col d.col_mat aff d.state p v hmem

/-- A concrete one-point, two-velocity state for the euler witness. -/
def dataCol : SimData :=
  { state := fun _ w => (w : ℚ) + 1
    result := fun _ _ => 0
    vG := fun _ => 0
    velocity_offset := 0
    dt := 1
    dp := 1
    n_points := 1
    n_vels := 2
    col := [⟨0, 0, 0, 1⟩]
    col_mat := fun _ _ => 1
    t := 0 }

/-- Witness for C3 at a concrete state: the affected row gains the matrix
product, an unaffected row is untouched. -/
theorem euler_scheme_spec_witness :
    (euler_scheme dataCol [0]).state 0 0
        = dataCol.state 0 0 + matDotVec dataCol.col_mat 0 (colFactor dataCol.state dataCol.col 0) ∧
    (euler_scheme dataCol [0]).state 5 0 = dataCol.state 5 0 := by
  constructor
  · exact (euler_scheme_spec dataCol [0] (by decide) 0 0).1 (by decide)
  · exact (euler_scheme_spec dataCol [0] (by decide) 5 0).2 (by decide)

/-- C1: one operator-splitting step applies the transport stage, then the
collision stage to its output, each exactly once; when the end-of-step
nonnegativity assertion holds on that result, the step returns it with the
time counter t incremented by exactly 1 (and by t+1 relative to the input
whenever the two stages leave t alone). -/
theorem operator_splitting_step (data : SimData) (fT fC : SimData → SimData)
    (h : allNonneg (fC (fT data))) :
    operator_splitting data fT fC = some { fC (fT data) with t := (fC (fT data)).t + 1 } ∧
    ((fC (fT data)).t = data.t →
      (operator_splitting data fT fC).map SimData.t = some (data.t + 1)) := by
  constructor
  · simp only [operator_splitting, if_pos h]
  · intro ht
    simp [operator_splitting, if_pos h, ht]

/-- A concrete all-zero one-cell state with t = 5 for the step witnesses. -/
def dataPos : SimData :=
  { state := fun _ _ => 0
    result := fun _ _ => 0
    vG := fun _ => 0
    velocity_offset := 0
    dt := 1
    dp := 1
    n_points := 1
    n_vels := 1
    col := []
    col_mat := fun _ _ => 0
    t := 5 }

/-- Witness for C1: with identity stages and a nonnegative state, the step
completes and advances t from 5 to 6. -/
theorem operator_splitting_step_witness :
    operator_splitting dataPos id id = some { dataPos with t := 6 } :=
  (operator_splitting_step dataPos id id (by decide)).1

/-- C4: when some state entry is negative after the transport and collision
stages, the step fails at the end-of-step assertion and returns nothing:
the time counter is not incremented and no partial result is produced. -/
theorem operator_splitting_assert_fails (data : SimData) (fT fC : SimData → SimData)
    (h : ¬ allNonneg (fC (fT data))) :
    operator_splitting data fT fC = none := by
  simp only [operator_splitting, if_neg h]

/-- A state with a negative entry for the failing-step witness. -/
def dataNeg : SimData :=
  { dataPos with state := fun _ _ => -1 }

/-- Witness for C4: a negative entry after the (identity) stages aborts the
step. -/
theorem operator_splitting_assert_fails_witness :
    operator_splitting dataNeg id id = none :=
  operator_splitting_assert_fails dataNeg id id (by decide)

/-- C2: for every affected point and every velocity, the inner-point
transport writes (1 - |pv|*dt/dp) * state[p,v] plus |pv|*dt/dp times the
upwind neighbour into the result buffer: row p+1 when pv < 0, row p-1 when
pv > 0; when pv = 0 the written value is state[p,v] unchanged. -/
theorem transport_fdm_inner_writes (d : SimData) (aff : List Int) (p : Int) (v : Nat)
    (hp : p ∈ aff) :
    (pv1 d v < 0 →
      (transport_fdm_inner d aff).result p v =
        (1 - |pv1 d v| * d.dt / d.dp) * d.state p v
          + |pv1 d v| * d.dt / d.dp * d.state (p + 1) v) ∧
    (0 < pv1 d v →
      (transport_fdm_inner d aff).result p v =
        (1 - |pv1 d v| * d.dt / d.dp) * d.state p v
          + |pv1 d v| * d.dt / d.dp * d.state (p - 1) v) ∧
    (pv1 d v = 0 → (transport_fdm_inner d aff).result p v = d.state p v) := by
  have hres : (transport_fdm_inner d aff).result p v
      = transport_outflow_remains d p v + transport_inflow_innerPoint d p v := by
    simp [transport_fdm_inner, hp]
  have houtflow : transport_outflow_remains d p v
      = (1 - |pv1 d v| * d.dt / d.dp) * d.state p v := rfl
  refine ⟨fun h => ?_, fun h => ?_, fun h => ?_⟩
  · rw [hres, houtflow, transport_inflow_innerPoint, if_pos h]
    ring
  · rw [hres, houtflow, transport_inflow_innerPoint, if_neg (lt_asymm h), if_pos h]
    ring
  · rw [hres, houtflow, transport_inflow_innerPoint,
      if_neg (by rw [h]; exact lt_irrefl 0), if_neg (by rw [h]; exact lt_irrefl 0), h]
    simp

/-- A concrete three-point state with one leftward velocity for the
transport witness: pv = -1, dt/dp = 1/2, state[p,v] = p. -/
def dataTrans : SimData :=
  { state := fun p _ => (p : ℚ)
    result := fun _ _ => 0
    vG := fun _ => -1
    velocity_offset := 0
    dt := 1
    dp := 2
    n_points := 3
    n_vels := 1
    col := []
    col_mat := fun _ _ => 0
    t := 0 }

/-- Witness for C2: at the affected inner point 1 the scheme yields
(1 - 1/2) * 1 + (1/2) * 2 = 3/2. -/
theorem transport_fdm_inner_writes_witness :
    (transport_fdm_inner dataTrans [1]).result 1 0 = 3 / 2 := by
  have h := (transport_fdm_inner_writes dataTrans [1] 1 0 (by decide)).1
    (by norm_num [pv1, dataTrans])
  rw [h]
  norm_num [pv1, dataTrans]

/-- C10: the boundary-aware inflow is zero at every velocity index outside
incoming_velocities, agrees with the generic inner-point inflow at every
index inside it, and therefore coincides with the inner-point inflow at
every valid velocity index once incoming_velocities contains them all. -/
theorem boundary_inflow_refines_inner (d : SimData) (incoming : List Nat) (p : Int) (v : Nat) :
    (v ∉ incoming → transport_inflow_boundaryPoint d incoming p v = 0) ∧
    (v ∈ incoming →
      transport_inflow_boundaryPoint d incoming p v = transport_inflow_innerPoint d p v) ∧
    ((∀ w < d.n_vels, w ∈ incoming) → ∀ (q : Int), ∀ w < d.n_vels,
      transport_inflow_boundaryPoint d incoming q w = transport_inflow_innerPoint d q w) := by
  refine ⟨fun h => ?_, fun h => ?_, fun hall q w hw => ?_⟩
  · simp [transport_inflow_boundaryPoint, h]
  · simp [transport_inflow_boundaryPoint, transport_inflow_innerPoint, h]
  · simp [transport_inflow_boundaryPoint, transport_inflow_innerPoint, hall w hw]

/-- Witness for C10: with incoming velocity list [0], column 1 is zeroed and
column 0 agrees with the inner-point inflow. -/
theorem boundary_inflow_refines_inner_witness :
    transport_inflow_boundaryPoint dataCol [0] 1 1 = 0 ∧
    transport_inflow_boundaryPoint dataCol [0] 1 0 = transport_inflow_innerPoint dataCol 1 0 := by
  constructor
  · exact (boundary_inflow_refines_inner dataCol [0] 1 1).1 (by decide)
  · exact (boundary_inflow_refines_inner dataCol [0] 1 0).2.1 (by decide)

/-- C5 (amended): grid_init succeeds exactly when boundaries and step are
submitted and the count is not (with a rectangular shape, boundary rows
matching the dimension and not all zero); in particular both remaining
two-of-three combinations fail. -/
theorem grid_init_succeeds_iff (g : GridS) (dim : Nat) (bo : Option (List (ℚ × ℚ)))
    (d : Option ℚ) (n : Option Int) (shape : GridShape) :
    (grid_init g dim bo d n shape).isSome ↔
      ∃ bs dv, bo = some bs ∧ d = some dv ∧ n = none ∧ bs.length = dim ∧
        shape = GridShape.rectangular ∧
        ¬ boundaries_all_zero (updated_boundaries g dim bs) := by
  rcases bo with _ | bs
  · simp [grid_init]
  rcases d with _ | dv
  · simp [grid_init]
  rcases n with _ | nv
  · cases shape with
    | notInitialized => simp [grid_init, init_without_n, compute_n?]
    | rectangular =>
        by_cases hlen : bs.length = dim
        · by_cases hz : boundaries_all_zero (updated_boundaries g dim bs)
          · simp [grid_init, init_without_n, compute_n?, hlen, hz]
          · simp [grid_init, init_without_n, compute_n?, hlen, hz]
        · simp [grid_init, init_without_n, hlen]
  · simp [grid_init]

/-- Counterexample to C5 as stated: submitting step size and total count
(exactly two of the three sizing parameters), or boundaries and total
count, makes Grid.initialize fail rather than derive the third parameter. -/
theorem grid_init_two_of_three_fails :
    grid_init gridDefault 1 none (some 1) (some 7) GridShape.rectangular = none ∧
    grid_init gridDefault 1 (some [(0, 1)]) none (some 7) GridShape.rectangular = none :=
  ⟨rfl, rfl⟩

/-- Witness for the amended C5: boundaries plus step succeed. -/
theorem grid_init_succeeds_iff_witness :
    (grid_init gridDefault 1 (some [(0, 1)]) (some 1) none GridShape.rectangular).isSome := by
  rw [grid_init_succeeds_iff]
  refine ⟨[(0, 1)], 1, rfl, rfl, rfl, rfl, rfl, fun hz => ?_⟩
  have h0 := hz 0
  simp [updated_boundaries] at h0

/-- A consistently initialized 1D grid with 300 points: 300 equals the
recomputed count, but 300 lies outside CPython's small-integer cache. -/
def grid300 : GridS :=
  { dim := 1
    boundaries := fun i => if i = 0 then (0, 299) else (0, 0)
    d := 1
    n := 300
    shape := GridShape.rectangular }

/-- The same grid scaled down to 200 points, inside the cache. -/
def grid200 : GridS :=
  { dim := 1
    boundaries := fun i => if i = 0 then (0, 199) else (0, 0)
    d := 1
    n := 200
    shape := GridShape.rectangular }

/-- The recomputed count of grid300 is 300. -/
lemma compute_n_grid300 : compute_n? grid300 = some 300 := by
  have hz : ¬ boundaries_all_zero grid300.boundaries := by
    intro h
    have h0 := h 0
    simp [grid300] at h0
  simp only [compute_n?]
  rw [if_neg hz]
  show some (∏ i : Fin 3, (⌈((grid300.boundaries i).2 - (grid300.boundaries i).1) / grid300.d⌉ + 1)) = some 300
  rw [Fin.prod_univ_three]
  norm_num +decide [grid300]

/-- The recomputed count of grid200 is 200. -/
lemma compute_n_grid200 : compute_n? grid200 = some 200 := by
  have hz : ¬ boundaries_all_zero grid200.boundaries := by
    intro h
    have h0 := h 0
    simp [grid200] at h0
  simp only [compute_n?]
  rw [if_neg hz]
  show some (∏ i : Fin 3, (⌈((grid200.boundaries i).2 - (grid200.boundaries i).1) / grid200.d⌉ + 1)) = some 200
  rw [Fin.prod_univ_three]
  norm_num +decide [grid200]

/-- C6 exhibits a code bug: grid300 stores a count of 300 that equals its
recomputed count and is at least 2, so per the claim the integrity check
must pass, yet it fails, because the source compares the counts with the
identity operator and two equal CPython ints above 256 are distinct
objects; the identical grid with 200 points passes. -/
theorem grid_check_integrity_large_count_bug :
    grid300.n = 300 ∧ compute_n? grid300 = some 300 ∧ 2 ≤ grid300.n ∧
    grid_check_integrity grid300 = false ∧
    grid200.n = 200 ∧ compute_n? grid200 = some 200 ∧
    grid_check_integrity grid200 = true := by
  refine ⟨rfl, compute_n_grid300, by norm_num [grid300], ?_, rfl, compute_n_grid200, ?_⟩
  · simp only [grid_check_integrity, compute_n_grid300]
    simp [int_is, grid300]
  · simp only [grid_check_integrity, compute_n_grid200]
    simp [int_is, grid200]


/-- A duplicate-free affected list that covers all of [0, size) and has
length size is exactly the index range [0, size). -/
lemma affected_eq_range (g : Geometry) (hnd : (affectedList g).Nodup)
    (hcov : ∀ k < g.size, (k : Int) ∈ affectedList g)
    (hlen : (affectedList g).length = g.size) :
    ∀ p : Int, p ∈ affectedList g ↔ 0 ≤ p ∧ p < (g.size : Int) := by
  classical
  have hSnodup : (List.map (fun k : Nat => (k : Int)) (List.range g.size)).Nodup :=
    (List.nodup_range g.size).map fun a b hab => Int.natCast_inj.mp hab
  have hsub : (List.map (fun k : Nat => (k : Int)) (List.range g.size)).toFinset
      ⊆ (affectedList g).toFinset := by
    intro x hx
    rw [List.mem_toFinset] at hx ⊢
    obtain ⟨k, hk, rfl⟩ := List.mem_map.mp hx
    exact hcov k (List.mem_range.mp hk)
  have hcard1 : (List.map (fun k : Nat => (k : Int)) (List.range g.size)).toFinset.card
      = g.size := by
    rw [List.toFinset_card_of_nodup hSnodup, List.length_map, List.length_range]
  have hcard2 : (affectedList g).toFinset.card = g.size := by
    rw [List.toFinset_card_of_nodup hnd, hlen]
  have heq : (List.map (fun k : Nat => (k : Int)) (List.range g.size)).toFinset
      = (affectedList g).toFinset :=
    Finset.eq_of_subset_of_card_le hsub (by rw [hcard1, hcard2])
  intro p
  constructor
  · intro hp
    have hpS : p ∈ (List.map (fun k : Nat => (k : Int)) (List.range g.size)).toFinset := by
      rw [heq]
      exact List.mem_toFinset.mpr hp
    rw [List.mem_toFinset] at hpS
    obtain ⟨k, hk, rfl⟩ := List.mem_map.mp hpS
    have := List.mem_range.mp hk
    omega
  · rintro ⟨h0, hlt⟩
    have hk : p.toNat < g.size := by omega
    have hcast : p = ((p.toNat : Nat) : Int) := by omega
    rw [hcast]
    exact hcov p.toNat hk

/-- C7: whenever is_set_up returns True, the affected points of the rules
are pairwise disjoint (their concatenation has no duplicate) and their
union is exactly the index range [0, size). -/
theorem geometry_partition_of_set_up (g : Geometry) (h : is_set_up g = some true) :
    (affectedList g).Nodup ∧
    ∀ p : Int, p ∈ affectedList g ↔ 0 ≤ p ∧ p < (g.size : Int) := by
  unfold is_set_up at h
  split_ifs at h with hnd hne hchk
  · exact absurd h (by simp)
  · refine ⟨hnd, ?_⟩
    have hemp : unaffectedList g = [] := not_not.mp hne
    have hcov : ∀ k < g.size, (k : Int) ∈ affectedList g := by
      intro k hk
      by_contra hmem
      have hmem' : (k : Int) ∈ unaffectedList g := by
        unfold unaffectedList
        rw [List.mem_filter]
        exact ⟨List.mem_map.mpr ⟨k, List.mem_range.mpr hk, rfl⟩, decide_eq_true hmem⟩
      rw [hemp] at hmem'
      exact absurd hmem' (List.not_mem_nil _)
    have hlen : (affectedList g).length = g.size := by
      have hc := hchk
      simp only [check_params_complete, check_params_core, Bool.and_eq_true,
        beq_iff_eq] at hc
      exact hc.2
    exact affected_eq_range g hnd hcov hlen

/-- An inner rule owning both points of a two-point grid. -/
def ruleW : RuleS :=
  { affected_points := [0, 1], initial_state_size := 4, kind := RuleKind.inner }

/-- A fully covered two-point geometry. -/
def geomW : Geometry :=
  { shape := [2], rules := [ruleW] }

/-- Witness for C7 on the concrete two-point geometry. -/
theorem geometry_partition_of_set_up_witness :
    is_set_up geomW = some true ∧
    ((affectedList geomW).Nodup ∧
      ∀ p : Int, p ∈ affectedList geomW ↔ 0 ≤ p ∧ p < (geomW.size : Int)) :=
  ⟨by decide, geometry_partition_of_set_up geomW (by decide)⟩

/-- Membership in unaffectedList implies not being owned by any rule. -/
lemma mem_unaffected_not_affected (g : Geometry) (p : Int)
    (hp : p ∈ unaffectedList g) : p ∉ affectedList g := by
  unfold unaffectedList at hp
  exact of_decide_eq_true (List.mem_filter.mp hp).2

/-- C8: add_rule raises and leaves the rules array unmodified when the new
rule's points intersect points already owned by an existing rule; a rule
whose points are all currently unclaimed is appended to the rules array. -/
theorem add_rule_spec (g : Geometry) (r : RuleS) :
    ((∃ p, p ∈ r.affected_points ∧ p ∈ affectedList g) →
      add_rule g r = Except.error g) ∧
    ((affectedList g).Nodup → (∀ p ∈ r.affected_points, p ∈ unaffectedList g) →
      rules_after (add_rule g r) = g.rules ++ [r]) := by
  constructor
  · rintro ⟨p, hpr, hpa⟩
    unfold add_rule
    by_cases hnd : (affectedList g).Nodup
    · have hsubf : ¬ ∀ q ∈ r.affected_points, q ∈ unaffectedList g :=
        fun hall => (mem_unaffected_not_affected g p (hall p hpr)) hpa
      rw [if_pos hnd, if_neg hsubf]
    · rw [if_neg hnd]
  · intro hnd hall
    unfold add_rule
    rw [if_pos hnd, if_pos hall]
    show rules_after
      (if check_params_core { g with rules := g.rules ++ [r] } = true
        then Except.ok ({ g with rules := g.rules ++ [r] } : Geometry)
        else Except.error ({ g with rules := g.rules ++ [r] } : Geometry))
      = g.rules ++ [r]
    by_cases hc : check_params_core { g with rules := g.rules ++ [r] } = true
    · rw [if_pos hc]
      rfl
    · rw [if_neg hc]
      rfl

/-- A one-rule geometry on a two-point grid, with point 1 unclaimed. -/
def geomHalf : Geometry :=
  { shape := [2], rules := [{ affected_points := [0], initial_state_size := 3,
                              kind := RuleKind.inner }] }

/-- A rule claiming the already-owned point 0. -/
def ruleClash : RuleS :=
  { affected_points := [0], initial_state_size := 3, kind := RuleKind.noTransport }

/-- A rule claiming the free point 1. -/
def ruleFree : RuleS :=
  { affected_points := [1], initial_state_size := 3, kind := RuleKind.inner }

/-- Witness for C8: the overlapping rule is rejected with the geometry
unmodified, the non-overlapping rule is appended. -/
theorem add_rule_spec_witness :
    add_rule geomHalf ruleClash = Except.error geomHalf ∧
    rules_after (add_rule geomHalf ruleFree) = geomHalf.rules ++ [ruleFree] :=
  ⟨(add_rule_spec geomHalf ruleClash).1 ⟨0, by decide, by decide⟩,
   (add_rule_spec geomHalf ruleFree).2 (by decide) (by decide)⟩

/-- transport_fdm_inner leaves result rows of unaffected points alone. -/
lemma fdm_result_untouched (d : SimData) (aff : List Int) (p : Int) (v : Nat)
    (hp : p ∉ aff) :
    (transport_fdm_inner d aff).result p v = d.result p v := by
  simp [transport_fdm_inner, hp]

/-- Folding rule transports over rules that do not own p leaves the result
row of p alone (each rule writes only its own affected rows). -/
lemma rules_fold_result_untouched (rs : List RuleS) (d : SimData) (p : Int) (v : Nat)
    (hp : p ∉ rs.flatMap RuleS.affected_points) :
    (rs.foldl rule_transport d).result p v = d.result p v := by
  induction rs generalizing d with
  | nil => rfl
  | cons a as ih =>
      rw [List.flatMap_cons] at hp
      simp only [List.mem_append, not_or] at hp
      rw [List.foldl_cons, ih _ hp.2]
      cases hk : a.kind with
      | inner => simp [rule_transport, hk, fdm_result_untouched d a.affected_points p v hp.1]
      | noTransport => simp [rule_transport, hk, no_transport]

/-- C9 (amended): a point owned by a rule whose transport writes nothing
receives, after Geometry.transport copies the result buffer into the state,
the pre-stage content of the result buffer at that row; this equals the
pre-stage state exactly when the result buffer already agreed with the
state there. -/
theorem geometry_transport_noop_rows (g : Geometry) (d : SimData) (r : RuleS)
    (hr : r ∈ g.rules) (hk : r.kind = RuleKind.noTransport) (p : Int)
    (hp : p ∈ r.affected_points) (hnd : (affectedList g).Nodup) (v : Nat) :
    (geometry_transport g d).state p v = d.result p v ∧
    (d.result p v = d.state p v → (geometry_transport g d).state p v = d.state p v) := by
  have key : (g.rules.foldl rule_transport d).result p v = d.result p v := by
    obtain ⟨l1, l2, hsplit⟩ := List.append_of_mem hr
    have haff : affectedList g
        = l1.flatMap RuleS.affected_points
          ++ (r.affected_points ++ l2.flatMap RuleS.affected_points) := by
      rw [affectedList, hsplit, List.flatMap_append, List.flatMap_cons]
    rw [haff] at hnd
    rw [List.nodup_append] at hnd
    obtain ⟨hA, hBC, hdisjA⟩ := hnd
    rw [List.nodup_append] at hBC
    obtain ⟨hB, hC, hdisjB⟩ := hBC
    have hpA : p ∉ l1.flatMap RuleS.affected_points :=
      fun hin => hdisjA hin (List.mem_append.mpr (Or.inl hp))
    have hpC : p ∉ l2.flatMap RuleS.affected_points := fun hin => hdisjB hp hin
    rw [hsplit, List.foldl_append, List.foldl_cons,
      rules_fold_result_untouched l2 _ p v hpC]
    have hstep : rule_transport (l1.foldl rule_transport d) r
        = l1.foldl rule_transport d := by
      rw [rule_transport, hk]
      rfl
    rw [hstep, rules_fold_result_untouched l1 d p v hpA]
  have hstate : (geometry_transport g d).state p v
      = (g.rules.foldl rule_transport d).result p v := rfl
  exact ⟨by rw [hstate, key], fun h => by rw [hstate, key, h]⟩

/-- A rule with no transport, owning the single point of a one-point grid
(the transport behaviour of a constant point). -/
def ruleConst : RuleS :=
  { affected_points := [0], initial_state_size := 1, kind := RuleKind.noTransport }

/-- The geometry holding only ruleConst. -/
def geomConst : Geometry :=
  { shape := [1], rules := [ruleConst] }

/-- A state whose scratch buffer disagrees with the state array. -/
def dataScr : SimData :=
  { state := fun _ _ => 1
    result := fun _ _ => 2
    vG := fun _ => 0
    velocity_offset := 0
    dt := 1
    dp := 1
    n_points := 1
    n_vels := 1
    col := []
    col_mat := fun _ _ => 0
    t := 0 }

/-- Counterexample to C9 as stated: point 0 is owned by a rule whose
transport performs no writes, yet Geometry.transport changes its state row
from 1 to the stale scratch-buffer content 2, because the stage ends by
copying the result buffer over the state unconditionally. -/
theorem geometry_transport_noop_changes_state :
    dataScr.state 0 0 = 1 ∧ (geometry_transport geomConst dataScr).state 0 0 = 2 := by
  constructor <;> rfl

/-- Witness for the amended C9 on the concrete no-op geometry. -/
theorem geometry_transport_noop_rows_witness :
    (geometry_transport geomConst dataScr).state 0 0 = dataScr.result 0 0 :=
  (geometry_transport_noop_rows geomConst dataScr ruleConst (by decide) rfl 0
    (by decide) (by decide) 0).1
